import Mathlib

/-!
Shallow embedding of the session lifecycle orchestrator of the talent-IQ
backend (src/backend/src/controllers/sessionController.js), together with
theorems settling the frozen claims about it.

Modelling conventions:
- Mongo documents become Lean structures; ObjectId becomes Nat.
- The Mongo collection becomes a list of Session records (the Store).
- `Session.findById` becomes a first-match lookup by the id field;
  `session.save()` becomes a pointwise update of the record with that id.
- An Express response (`res.status(n).json(x)`) becomes a `Resp` value.
  Express allows at most one response per request: a second write throws
  ERR_HTTP_HEADERS_SENT.  Handlers that can attempt multiple writes (the
  end handler, whose 403 branch is missing a `return`) therefore record
  the list of responses actually written, in order, and a thrown-flag.
- Stream-provider calls (video call create/delete, channel create/delete,
  addMembers) are modelled by effect flags on the result record; the
  deletion calls can fail at the provider, so the end handler takes two
  booleans saying whether each provider deletion succeeds.
- JavaScript exceptions reaching each handler's catch block produce the
  500 "Internal Server Error" response, unless a response was already
  written (in which case the catch block's own write throws and nothing
  more is observable).
-/

namespace TalentIQ

/-- Session status. Modelled from the spec: the Session schema
(models/Session.js) is imported by the controller but is not part of the
provided sources; the spec's data model (§3) fixes the enum
`{active, completed}` starting at `active`. -/
inductive SessionStatus where
  | active
  | completed
deriving DecidableEq, Repr

/-- A session record. Modelled from the spec: the Session schema
(models/Session.js) is not among the provided sources; the spec's data
model (§3) lists exactly these fields (id, problem, difficulty, callId,
host, participant, status, createdAt).  The controller code reads and
writes `status`, `participant`, `host`, `callId` with exactly these
meanings. -/
structure Session where
  id : Nat
  problem : String
  difficulty : String
  callId : String
  host : Nat
  participant : Option Nat
  status : SessionStatus
  createdAt : Nat
deriving DecidableEq, Repr

/-- The session collection. -/
abbrev Store := List Session

/-- `Session.findById(id)`: first record whose id matches. -/
def findById (store : Store) (id : Nat) : Option Session :=
  store.find? (fun s => s.id == id)

/-- Body of an Express JSON response as the session controller builds it:
`{message}`, `{session}`, `{session, message}` or `{sessions}`. -/
inductive RespBody where
  | msg (text : String)
  | sess (s : Session)
  | sessMsg (s : Session) (text : String)
  | sessList (l : List Session)
deriving DecidableEq, Repr

/-- One Express response: `res.status(status).json(body)`. -/
structure Resp where
  status : Nat
  body : RespBody
deriving DecidableEq, Repr

/-- JavaScript truthiness of the destructured request-body fields `problem`
and `difficulty`: `!x` is true when the field is absent (undefined) or the
empty string. -/
def jsFalsyStr : Option String → Bool
  | none => true
  | some s => s == ""

/-- Result of the create handler: final store, the response written, and
whether the Stream video call and chat channel were created. -/
structure CreateResult where
  store : Store
  resp : Resp
  callCreated : Bool
  channelCreated : Bool
deriving DecidableEq, Repr

/-- `createSession` (sessionController.js lines 17-55).
Control flow of the source:
1. line 23: if `!problem || !difficulty`, respond 400
   "Problem and Difficulty are required" and return — before any store or
   provider access.
2. line 28: `` const callId = `session_${Date.now()}_${Math.random().toString(36).substrinng(7)}` ``.
   `substrinng` is not a method of String (typo for `substring`), so the
   member access yields `undefined` and the call throws a TypeError.  The
   throw happens before `Session.create` (line 31) and before either
   Stream call, so control reaches the catch block (line 51) with no
   side effect performed; the catch responds 500 "Internal Server Error".
Consequently no execution of the handler reaches the persistence or
provider-creation steps (which also reference the undefined identifiers
`clerkID` at line 45 and `channel` at line 49). -/
def createSession (store : Store) (problem difficulty : Option String) :
    CreateResult :=
  if jsFalsyStr problem || jsFalsyStr difficulty then
    ⟨store, ⟨400, .msg "Problem and Difficulty are required"⟩, false, false⟩
  else
    ⟨store, ⟨500, .msg "Internal Server Error"⟩, false, false⟩

/-- Result of the join handler: final store, the response written, and
whether `channel.addMembers` ran. -/
structure JoinResult where
  store : Store
  resp : Resp
  memberAdded : Bool
deriving DecidableEq, Repr

/-- `session.participant = userId; await session.save()`: update the record
with the matching id. -/
def setParticipant (store : Store) (id userId : Nat) : Store :=
  store.map (fun t => if t.id == id then { t with participant := some userId } else t)

/-- `joinSession` (sessionController.js lines 141-166).
1. line 149: no record → 404 "Session not found".
2. line 152: `if (session.participant)` → 404 "Session is full".
   (No check of `session.status` and no comparison of the caller against
   `session.host` appears anywhere in the handler.)
3. lines 154-158: set `participant = userId`, save, add the caller to the
   chat channel, respond 200 with the updated session. -/
def joinSession (store : Store) (id userId : Nat) : JoinResult :=
  match findById store id with
  | none => ⟨store, ⟨404, .msg "Session not found"⟩, false⟩
  | some s =>
    if s.participant.isSome then
      ⟨store, ⟨404, .msg "Session is full"⟩, false⟩
    else
      ⟨setParticipant store id userId,
       ⟨200, .sess { s with participant := some userId }⟩, true⟩

/-- State produced by the end handler: final store, the responses actually
written in order, and whether the Stream call / channel were deleted. -/
structure EndState where
  store : Store
  sent : List Resp
  callDeleted : Bool
  channelDeleted : Bool
deriving DecidableEq, Repr

/-- `session.status = "completed"; await session.save()`. -/
def setStatusCompleted (store : Store) (id : Nat) : Store :=
  store.map (fun t => if t.id == id then { t with status := .completed } else t)

/-- Body of `endSession` (sessionController.js lines 176-211), up to the
catch block; the second component is true when the body throws.
1. line 182: no record → 404 "Session not found", return.
2. lines 185-187: if the caller is not the host, `res.status(403).json(...)`
   is executed but there is NO return statement, so execution falls
   through to the following checks with the 403 already written.
3. lines 190-192: if `status === "completed"`, `return res.status(400)...`;
   if the 403 was already written this write throws ERR_HTTP_HEADERS_SENT.
4. lines 194-195: set `status = "completed"`, save.
5. lines 198-203: delete the Stream video call, then the chat channel;
   either provider call may throw (deleteCallOk / deleteChannelOk).
6. line 205: respond 200 `{session, message}`; throws if the 403 was
   already written. -/
def endSessionBody (store : Store) (id userId : Nat)
    (deleteCallOk deleteChannelOk : Bool) : EndState × Bool :=
  match findById store id with
  | none => (⟨store, [⟨404, .msg "Session not found"⟩], false, false⟩, false)
  | some s =>
    let sent0 : List Resp :=
      if s.host == userId then []
      else [⟨403, .msg "Only the host can end the Session"⟩]
    if s.status = .completed then
      if sent0.isEmpty then
        (⟨store, [⟨400, .msg "Session is already completed"⟩], false, false⟩, false)
      else
        (⟨store, sent0, false, false⟩, true)
    else
      let store1 := setStatusCompleted store id
      if deleteCallOk = false then
        (⟨store1, sent0, false, false⟩, true)
      else if deleteChannelOk = false then
        (⟨store1, sent0, true, false⟩, true)
      else if sent0.isEmpty then
        (⟨store1,
          [⟨200, .sessMsg { s with status := .completed } "Session ended successfully"⟩],
          true, true⟩, false)
      else
        (⟨store1, sent0, true, true⟩, true)

/-- `endSession` with its catch block (lines 207-210): when the body throws
and no response has been written yet, the catch writes the 500; when a
response (the 403) was already written, the catch block's own write throws
and nothing is added. -/
def endSession (store : Store) (id userId : Nat)
    (deleteCallOk deleteChannelOk : Bool) : EndState :=
  match endSessionBody store id userId deleteCallOk deleteChannelOk with
  | (st, false) => st
  | (st, true) =>
    if st.sent.isEmpty then
      { st with sent := [⟨500, .msg "Internal Server Error"⟩] }
    else st

/-- Sort key of `.sort({ createdAt: -1 })`: newest first. -/
def byNewest (a b : Session) : Prop := b.createdAt ≤ a.createdAt

instance : DecidableRel byNewest := fun a b => Nat.decLe _ _

instance : IsTotal Session byNewest :=
  ⟨fun a b => le_total b.createdAt a.createdAt⟩

instance : IsTrans Session byNewest :=
  ⟨fun _ _ _ h1 h2 => le_trans h2 h1⟩

/-- `.sort({ createdAt: -1 })`: the source passes only `createdAt` to the
sort, so ties have no secondary key; we model the order on ties as the
store order (a stable sort). -/
def sortByNewest (l : List Session) : List Session :=
  List.insertionSort byNewest l

/-- `getActiveSessions` (sessionController.js lines 65-78):
filter `status: "active"`, sort by `createdAt` descending, limit 20,
respond 200 `{sessions}`.  (The `populate` of the host profile projects
user fields and does not change which sessions are returned.) -/
def getActiveSessions (store : Store) : Resp :=
  ⟨200, .sessList ((sortByNewest
      (store.filter (fun s => s.status == .active))).take 20)⟩

/-- `getMyRecentSessions` (sessionController.js lines 86-103):
filter `status: "completed"` and caller host or participant, sort by
`createdAt` descending, limit 20, respond 200 `{sessions}`. -/
def getMyRecentSessions (store : Store) (userId : Nat) : Resp :=
  ⟨200, .sessList ((sortByNewest
      (store.filter (fun s =>
        s.status == .completed &&
          (s.host == userId || s.participant == some userId)))).take 20)⟩

/-! Concrete records used by witnesses and counterexamples. -/

/-- An active session hosted by user 7 with no participant yet. -/
def demoActive : Session := ⟨1, "Two Sum", "easy", "call1", 7, none, .active, 10⟩

/-- An active session hosted by user 7 whose participant seat is taken by
user 9. -/
def demoFull : Session := ⟨1, "Two Sum", "easy", "call1", 7, some 9, .active, 10⟩

/-- A completed session hosted by user 7 with no participant. -/
def demoCompleted : Session := ⟨1, "Two Sum", "easy", "call1", 7, none, .completed, 10⟩

/-- Two active sessions sharing the same creation timestamp, ids 1 and 2. -/
def tieA : Session := ⟨1, "A", "easy", "c1", 3, none, .active, 5⟩

/-- See `tieA`. -/
def tieB : Session := ⟨2, "B", "easy", "c2", 4, none, .active, 5⟩

/-! Helper lemmas about the store operations. -/

/-- Updating the record with a given id commutes with looking that id up:
the lookup finds the updated record (update functions preserve the id
field). -/
theorem findById_mapUpdate (g : Session → Session) (hg : ∀ t, (g t).id = t.id)
    (store : Store) (id : Nat) :
    findById (store.map fun t => if t.id == id then g t else t) id =
      (findById store id).map g := by
  induction store with
  | nil => rfl
  | cons t ts ih =>
    by_cases h : t.id = id
    · have hb : (t.id == id) = true := by simpa using h
      have hgb : ((g t).id == id) = true := by simpa [hg t] using h
      simp [findById, List.find?, hb, hgb]
    · have hb : (t.id == id) = false := by simpa using h
      simpa [findById, List.find?, hb] using ih

/-- Lookup after `setParticipant`. -/
theorem findById_setParticipant (store : Store) (id u : Nat) (s : Session)
    (hfind : findById store id = some s) :
    findById (setParticipant store id u) id =
      some { s with participant := some u } := by
  have h := findById_mapUpdate (fun t => { t with participant := some u })
    (fun _ => rfl) store id
  rw [setParticipant, h, hfind, Option.map_some']

/-- Lookup after `setStatusCompleted`. -/
theorem findById_setStatusCompleted (store : Store) (id : Nat) (s : Session)
    (hfind : findById store id = some s) :
    findById (setStatusCompleted store id) id =
      some { s with status := .completed } := by
  have h := findById_mapUpdate (fun t => { t with status := .completed })
    (fun _ => rfl) store id
  rw [setStatusCompleted, h, hfind, Option.map_some']

/-- A successful join: session found, participant seat free. -/
theorem joinSession_success (store : Store) (id u : Nat) (s : Session)
    (hfind : findById store id = some s) (hp : s.participant = none) :
    joinSession store id u =
      ⟨setParticipant store id u,
       ⟨200, .sess { s with participant := some u }⟩, true⟩ := by
  rw [joinSession, hfind]
  simp [hp]

/-- A join on a session whose participant is set: full, store untouched. -/
theorem joinSession_full (store : Store) (id u : Nat) (s : Session) (p : Nat)
    (hfind : findById store id = some s) (hp : s.participant = some p) :
    joinSession store id u = ⟨store, ⟨404, .msg "Session is full"⟩, false⟩ := by
  rw [joinSession, hfind]
  simp [hp]

/-- The end handler either leaves the store unchanged or marks the looked-up
id completed; it never performs any other store write. -/
theorem endSession_store_cases (store : Store) (i u : Nat) (dc dch : Bool) :
    (endSession store i u dc dch).store = store ∨
    (endSession store i u dc dch).store = setStatusCompleted store i := by
  rw [endSession, endSessionBody]
  cases hf : findById store i with
  | none => simp
  | some s =>
    by_cases hh : s.host == u <;> by_cases hs : s.status = SessionStatus.completed <;>
      cases dc <;> cases dch <;> simp [hh, hs]

/-- The join handler either leaves the store unchanged or sets the
participant of the looked-up id; it never performs any other store
write. -/
theorem joinSession_store_cases (store : Store) (i u : Nat) :
    (joinSession store i u).store = store ∨
    (joinSession store i u).store = setParticipant store i u := by
  rw [joinSession]
  cases hf : findById store i with
  | none => simp
  | some s => by_cases hp : s.participant.isSome <;> simp [hp]

/-! Claim theorems. -/

/-- C4: a create request whose problem or difficulty field is missing or
empty fails with the 400 validation response before any side effect: the
store is returned unchanged and neither the Stream call nor the chat
channel is created. -/
theorem createSession_validation_noSideEffects (store : Store)
    (problem difficulty : Option String)
    (h : jsFalsyStr problem = true ∨ jsFalsyStr difficulty = true) :
    createSession store problem difficulty =
      ⟨store, ⟨400, .msg "Problem and Difficulty are required"⟩, false, false⟩ := by
  rw [createSession]
  rcases h with h | h <;> simp [h]

/-- Witness for C4 at a concrete input: empty problem, store `[demoActive]`. -/
theorem createSession_validation_noSideEffects_witness :
    createSession [demoActive] (some "") (some "easy") =
      ⟨[demoActive], ⟨400, .msg "Problem and Difficulty are required"⟩,
       false, false⟩ :=
  createSession_validation_noSideEffects [demoActive] (some "") (some "easy")
    (Or.inl (by decide))

/-- C5: evaluation of the create handler at a valid input. The callId
template literal (line 28) calls the nonexistent String method
`substrinng`, so the handler throws before generating any callId, before
persisting, and before touching either realtime resource; the caller
receives 500 and the store is unchanged.  No execution of create succeeds,
so no callId with a time component and a random component is ever
produced. -/
theorem createSession_valid_input_throws :
    createSession [] (some "Two Sum") (some "easy") =
      ⟨[], ⟨500, .msg "Internal Server Error"⟩, false, false⟩ := by decide

/-- C6: evaluation of the create handler at a valid input over a non-empty
store. The thrown TypeError at the callId line (before `Session.create` at
line 31) means no session record is ever persisted: the store is returned
exactly as it was, no realtime resource is created, and the response is
500, not the created session. -/
theorem createSession_persistsNothing :
    (createSession [demoCompleted] (some "Binary Search") (some "medium")).store
        = [demoCompleted] ∧
    (createSession [demoCompleted] (some "Binary Search") (some "medium")).resp
        = ⟨500, .msg "Internal Server Error"⟩ ∧
    (createSession [demoCompleted] (some "Binary Search") (some "medium")).callCreated
        = false ∧
    (createSession [demoCompleted] (some "Binary Search") (some "medium")).channelCreated
        = false := by decide

/-- C2: a join on an existing session whose participant is already set
fails with the 404 "Session is full" response and leaves the store
unchanged; a join on an absent id fails with the 404 "Session not found"
response; the two error responses are distinct values (they share the
HTTP status 404 and differ in the message). -/
theorem joinSession_full_vs_notFound (store : Store) (id userId idA : Nat)
    (s : Session) (p : Nat)
    (hfind : findById store id = some s) (hp : s.participant = some p)
    (habs : findById store idA = none) :
    (joinSession store id userId).resp = ⟨404, .msg "Session is full"⟩ ∧
    (joinSession store id userId).store = store ∧
    (joinSession store idA userId).resp = ⟨404, .msg "Session not found"⟩ ∧
    (joinSession store id userId).resp ≠ (joinSession store idA userId).resp := by
  have hfull := joinSession_full store id userId s p hfind hp
  have habs' : joinSession store idA userId =
      ⟨store, ⟨404, .msg "Session not found"⟩, false⟩ := by
    rw [joinSession, habs]
  rw [hfull, habs']
  refine ⟨rfl, rfl, rfl, ?_⟩
  show (⟨404, RespBody.msg "Session is full"⟩ : Resp) ≠
    ⟨404, RespBody.msg "Session not found"⟩
  decide

/-- Witness for C2: store holding the full session `demoFull` (id 1,
participant 9); join attempts on id 1 and on the absent id 2 by user 5. -/
theorem joinSession_full_vs_notFound_witness :
    (joinSession [demoFull] 1 5).resp = ⟨404, .msg "Session is full"⟩ ∧
    (joinSession [demoFull] 1 5).store = [demoFull] ∧
    (joinSession [demoFull] 2 5).resp = ⟨404, .msg "Session not found"⟩ ∧
    (joinSession [demoFull] 1 5).resp ≠ (joinSession [demoFull] 2 5).resp :=
  joinSession_full_vs_notFound [demoFull] 1 5 2 demoFull 9 rfl rfl rfl

/-- C3: on a session with no participant, a join by any caller u sets the
participant to u and returns the updated session with status 200; every
subsequent join on the same session, by any identity v, fails with the
404 "Session is full" response, leaves the store untouched, and the
participant remains u. -/
theorem joinSession_first_wins_second_full (store : Store) (id u : Nat)
    (s : Session) (hfind : findById store id = some s)
    (hp : s.participant = none) :
    (joinSession store id u).resp =
      ⟨200, .sess { s with participant := some u }⟩ ∧
    findById (joinSession store id u).store id =
      some { s with participant := some u } ∧
    ∀ v : Nat,
      (joinSession (joinSession store id u).store id v).resp =
        ⟨404, .msg "Session is full"⟩ ∧
      (joinSession (joinSession store id u).store id v).store =
        (joinSession store id u).store ∧
      findById (joinSession (joinSession store id u).store id v).store id =
        some { s with participant := some u } := by
  have h1 := joinSession_success store id u s hfind hp
  have hfind1 : findById (joinSession store id u).store id =
      some { s with participant := some u } := by
    rw [h1]
    exact findById_setParticipant store id u s hfind
  refine ⟨by rw [h1], hfind1, fun v => ?_⟩
  have h2 := joinSession_full (joinSession store id u).store id v
    { s with participant := some u } u hfind1 rfl
  rw [h2]
  exact ⟨rfl, rfl, hfind1⟩

/-- Witness for C3: user 8 joins `demoActive` (id 1); user 9 then fails. -/
theorem joinSession_first_wins_second_full_witness :
    (joinSession [demoActive] 1 8).resp =
      ⟨200, .sess { demoActive with participant := some 8 }⟩ ∧
    findById (joinSession [demoActive] 1 8).store 1 =
      some { demoActive with participant := some 8 } ∧
    ∀ v : Nat,
      (joinSession (joinSession [demoActive] 1 8).store 1 v).resp =
        ⟨404, .msg "Session is full"⟩ ∧
      (joinSession (joinSession [demoActive] 1 8).store 1 v).store =
        (joinSession [demoActive] 1 8).store ∧
      findById (joinSession (joinSession [demoActive] 1 8).store 1 v).store 1 =
        some { demoActive with participant := some 8 } :=
  joinSession_first_wins_second_full [demoActive] 1 8 demoActive rfl rfl

/-- C9 counterexample: `demoActive` is hosted by user 7 with no
participant; a join by user 7 — the session's own host — succeeds and sets
the participant to 7, so host and participant are the same identity,
refuting the claim that no operation allows the host to become the
participant. -/
theorem joinSession_host_joins_own_session :
    demoActive.host = 7 ∧
    (joinSession [demoActive] 1 7).resp =
      ⟨200, .sess { demoActive with participant := some 7 }⟩ ∧
    findById (joinSession [demoActive] 1 7).store 1 =
      some { demoActive with participant := some 7 } := by decide

/-- C9 amended: the join handler compares the caller against nothing but
the participant seat; for every session with participant unset, a join by
the session's own host succeeds and sets participant to the host, so
host-participant distinctness is not enforced by any operation. -/
theorem joinSession_no_distinctness_enforced (store : Store) (id : Nat)
    (s : Session) (hfind : findById store id = some s)
    (hp : s.participant = none) :
    (joinSession store id s.host).resp =
      ⟨200, .sess { s with participant := some s.host }⟩ ∧
    findById (joinSession store id s.host).store id =
      some { s with participant := some s.host } := by
  have h1 := joinSession_success store id s.host s hfind hp
  refine ⟨by rw [h1], ?_⟩
  rw [h1]
  exact findById_setParticipant store id s.host s hfind

/-- Witness for the amended C9: host 7 of `demoActive` joins it. -/
theorem joinSession_no_distinctness_enforced_witness :
    (joinSession [demoActive] 1 demoActive.host).resp =
      ⟨200, .sess { demoActive with participant := some demoActive.host }⟩ ∧
    findById (joinSession [demoActive] 1 demoActive.host).store 1 =
      some { demoActive with participant := some demoActive.host } :=
  joinSession_no_distinctness_enforced [demoActive] 1 demoActive rfl rfl

/-- C10: the join handler never inspects the session's status: a join on
a completed session with participant unset succeeds with status 200,
sets the participant to the caller, and returns the updated session. -/
theorem joinSession_ignores_status (store : Store) (id u : Nat) (s : Session)
    (hfind : findById store id = some s)
    (hcompleted : s.status = SessionStatus.completed)
    (hp : s.participant = none) :
    (joinSession store id u).resp =
      ⟨200, .sess { s with participant := some u }⟩ ∧
    findById (joinSession store id u).store id =
      some { s with participant := some u } := by
  have h1 := joinSession_success store id u s hfind hp
  refine ⟨by rw [h1], ?_⟩
  rw [h1]
  exact findById_setParticipant store id u s hfind

/-- Witness for C10: user 8 joins the completed session `demoCompleted`. -/
theorem joinSession_ignores_status_witness :
    (joinSession [demoCompleted] 1 8).resp =
      ⟨200, .sess { demoCompleted with participant := some 8 }⟩ ∧
    findById (joinSession [demoCompleted] 1 8).store 1 =
      some { demoCompleted with participant := some 8 } :=
  joinSession_ignores_status [demoCompleted] 1 8 demoCompleted rfl rfl rfl

/-- C1: evaluation of the end handler when the non-host user 8 ends the
active session `demoActive` (host 7).  The 403 response is written, but —
the host check at lines 185-187 having no `return` — execution continues:
the status is flipped to completed and both realtime resources are
deleted.  The authorization check does not short-circuit and the session's
status does not stay unchanged. -/
theorem endSession_nonHost_still_mutates :
    demoActive.host = 7 ∧ demoActive.status = SessionStatus.active ∧
    (endSession [demoActive] 1 8 true true).sent =
      [⟨403, .msg "Only the host can end the Session"⟩] ∧
    findById (endSession [demoActive] 1 8 true true).store 1 =
      some { demoActive with status := .completed } ∧
    (endSession [demoActive] 1 8 true true).callDeleted = true ∧
    (endSession [demoActive] 1 8 true true).channelDeleted = true := by decide

/-- An end by the host of an active session with both provider deletions
succeeding: 200 response, status flipped. -/
theorem endSession_host_active_run (store : Store) (id : Nat) (s : Session)
    (hfind : findById store id = some s)
    (hactive : s.status = SessionStatus.active) :
    endSession store id s.host true true =
      ⟨setStatusCompleted store id,
       [⟨200, .sessMsg { s with status := .completed }
          "Session ended successfully"⟩],
       true, true⟩ := by
  rw [endSession, endSessionBody, hfind]
  simp [hactive]

/-- An end by the host of an active session flips the status in the store
regardless of whether the provider deletions succeed. -/
theorem endSession_host_active_store (store : Store) (id : Nat) (s : Session)
    (hfind : findById store id = some s)
    (hactive : s.status = SessionStatus.active) (dc dch : Bool) :
    (endSession store id s.host dc dch).store = setStatusCompleted store id := by
  rw [endSession, endSessionBody, hfind]
  cases dc <;> cases dch <;> simp [hactive]

/-- An end by the host of an already-completed session: 400
"Session is already completed", nothing mutated, nothing deleted. -/
theorem endSession_host_completed_run (store : Store) (id u : Nat)
    (s : Session) (hfind : findById store id = some s) (hhost : s.host = u)
    (hcompleted : s.status = SessionStatus.completed) (dc dch : Bool) :
    endSession store id u dc dch =
      ⟨store, [⟨400, .msg "Session is already completed"⟩], false, false⟩ := by
  rw [endSession, endSessionBody, hfind]
  simp [hcompleted, ← hhost]

/-- Elementwise view of `setStatusCompleted`. -/
theorem setStatusCompleted_getElem? (store : Store) (id j : Nat) :
    (setStatusCompleted store id)[j]? =
      store[j]?.map
        (fun t => if t.id == id then { t with status := .completed } else t) := by
  rw [setStatusCompleted]
  exact List.getElem?_map ..

/-- Elementwise view of `setParticipant`. -/
theorem setParticipant_getElem? (store : Store) (id u j : Nat) :
    (setParticipant store id u)[j]? =
      store[j]?.map
        (fun t => if t.id == id then { t with participant := some u } else t) := by
  rw [setParticipant]
  exact List.getElem?_map ..

/-- C7: status is monotonic, `active → completed`, and the transition is
made exactly once by the host: (a) the first end by the host of an active
session responds 200 with the completed session and the store now holds it
completed; (b) a second end by the same host on the resulting store fails
with the 400 "Session is already completed" response, deletes nothing and
leaves the store unchanged; (c) even when either provider teardown fails
after the flip, the store still holds the session completed — the flip is
never rolled back; (d) no end call ever moves any record out of
completed; (e) no join call changes any record's status; (f) create never
writes the store at all. -/
theorem endSession_status_monotonic (store : Store) (id : Nat) (s : Session)
    (hfind : findById store id = some s)
    (hactive : s.status = SessionStatus.active) :
    (endSession store id s.host true true).sent =
      [⟨200, .sessMsg { s with status := .completed }
        "Session ended successfully"⟩] ∧
    findById (endSession store id s.host true true).store id =
      some { s with status := .completed } ∧
    (∀ dc dch : Bool,
      endSession (endSession store id s.host true true).store id s.host dc dch =
        ⟨(endSession store id s.host true true).store,
         [⟨400, .msg "Session is already completed"⟩], false, false⟩) ∧
    (∀ dc dch : Bool,
      findById (endSession store id s.host dc dch).store id =
        some { s with status := .completed }) ∧
    (∀ i u : Nat, ∀ dc dch : Bool, ∀ j : Nat, ∀ t : Session,
      store[j]? = some t → t.status = SessionStatus.completed →
      ∃ t', (endSession store i u dc dch).store[j]? = some t' ∧
        t'.id = t.id ∧ t'.status = SessionStatus.completed) ∧
    (∀ i u : Nat, ∀ j : Nat, ∀ t : Session, store[j]? = some t →
      ∃ t', (joinSession store i u).store[j]? = some t' ∧
        t'.id = t.id ∧ t'.status = t.status) ∧
    (∀ p d : Option String, (createSession store p d).store = store) := by
  have hrun := endSession_host_active_run store id s hfind hactive
  have hstore1 : findById (endSession store id s.host true true).store id =
      some { s with status := .completed } := by
    rw [hrun]
    exact findById_setStatusCompleted store id s hfind
  refine ⟨by rw [hrun], hstore1, ?_, ?_, ?_, ?_, ?_⟩
  · intro dc dch
    exact endSession_host_completed_run _ id s.host
      { s with status := .completed } hstore1 rfl rfl dc dch
  · intro dc dch
    rw [endSession_host_active_store store id s hfind hactive dc dch]
    exact findById_setStatusCompleted store id s hfind
  · intro i u dc dch j t ht htc
    rcases endSession_store_cases store i u dc dch with hcase | hcase
    · exact ⟨t, by rw [hcase, ht], rfl, htc⟩
    · refine ⟨if t.id == i then { t with status := .completed } else t, ?_, ?_, ?_⟩
      · rw [hcase, setStatusCompleted_getElem?, ht, Option.map_some']
      · by_cases hti : t.id == i <;> simp [hti]
      · by_cases hti : t.id == i <;> simp [hti, htc]
  · intro i u j t ht
    rcases joinSession_store_cases store i u with hcase | hcase
    · exact ⟨t, by rw [hcase, ht], rfl, rfl⟩
    · refine ⟨if t.id == i then { t with participant := some u } else t, ?_, ?_, ?_⟩
      · rw [hcase, setParticipant_getElem?, ht, Option.map_some']
      · by_cases hti : t.id == i <;> simp [hti]
      · by_cases hti : t.id == i <;> simp [hti]
  · intro p d
    rw [createSession]
    split <;> rfl

/-- Witness for C7: host 7 ends `demoActive`; the store then holds it
completed. -/
theorem endSession_status_monotonic_witness :
    (endSession [demoActive] 1 7 true true).sent =
      [⟨200, .sessMsg { demoActive with status := .completed }
        "Session ended successfully"⟩] ∧
    findById (endSession [demoActive] 1 7 true true).store 1 =
      some { demoActive with status := .completed } :=
  ⟨(endSession_status_monotonic [demoActive] 1 demoActive rfl rfl).1,
   (endSession_status_monotonic [demoActive] 1 demoActive rfl rfl).2.1⟩

/-- The sort used by both list queries is sorted by `createdAt`
descending. -/
theorem sortByNewest_sorted (l : List Session) :
    (sortByNewest l).Pairwise byNewest :=
  List.sorted_insertionSort byNewest l

/-- The sort used by both list queries is a permutation: same members. -/
theorem mem_sortByNewest (l : List Session) (s : Session) :
    s ∈ sortByNewest l ↔ s ∈ l :=
  (List.perm_insertionSort byNewest l).mem_iff

/-- C8 counterexample: `tieA` (id 1) and `tieB` (id 2) are both active and
share createdAt = 5, yet the active list returns them as [tieA, tieB] —
ids ascending within the tie — because the source sorts on `createdAt`
alone; ties are not broken by id descending. -/
theorem getActiveSessions_no_id_tiebreak :
    tieA.createdAt = tieB.createdAt ∧ tieA.id < tieB.id ∧
    getActiveSessions [tieA, tieB] = ⟨200, .sessList [tieA, tieB]⟩ := by
  decide

/-- C8 amended: both list queries respond 200 with at most 20 sessions
sorted by `createdAt` descending (no secondary key: ties keep store
order); every session in the active list is in the store with status
active; every session in the my-recent list is in the store, completed,
and has the caller as host or participant. -/
theorem listQueries_bounded_sorted_filtered (store : Store) (userId : Nat) :
    ∃ la lm : List Session,
      getActiveSessions store = ⟨200, .sessList la⟩ ∧
      getMyRecentSessions store userId = ⟨200, .sessList lm⟩ ∧
      la.length ≤ 20 ∧ lm.length ≤ 20 ∧
      la.Pairwise byNewest ∧ lm.Pairwise byNewest ∧
      (∀ s ∈ la, s ∈ store ∧ s.status = SessionStatus.active) ∧
      (∀ s ∈ lm, s ∈ store ∧ s.status = SessionStatus.completed ∧
        (s.host = userId ∨ s.participant = some userId)) := by
  refine ⟨_, _, rfl, rfl, List.length_take_le .., List.length_take_le ..,
    (sortByNewest_sorted _).sublist (List.take_sublist ..),
    (sortByNewest_sorted _).sublist (List.take_sublist ..), ?_, ?_⟩
  · intro s hs
    have h1 := (mem_sortByNewest _ _).mp (List.take_subset _ _ hs)
    rw [List.mem_filter] at h1
    exact ⟨h1.1, by simpa using h1.2⟩
  · intro s hs
    have h1 := (mem_sortByNewest _ _).mp (List.take_subset _ _ hs)
    rw [List.mem_filter] at h1
    refine ⟨h1.1, ?_⟩
    simpa using h1.2

/-- Witness for the amended C8 at the concrete store `[tieA, tieB]` and
caller 3. -/
theorem listQueries_bounded_sorted_filtered_witness :
    ∃ la lm : List Session,
      getActiveSessions [tieA, tieB] = ⟨200, .sessList la⟩ ∧
      getMyRecentSessions [tieA, tieB] 3 = ⟨200, .sessList lm⟩ ∧
      la.length ≤ 20 ∧ lm.length ≤ 20 ∧
      la.Pairwise byNewest ∧ lm.Pairwise byNewest ∧
      (∀ s ∈ la, s ∈ [tieA, tieB] ∧ s.status = SessionStatus.active) ∧
      (∀ s ∈ lm, s ∈ [tieA, tieB] ∧ s.status = SessionStatus.completed ∧
        (s.host = 3 ∨ s.participant = some 3)) :=
  listQueries_bounded_sorted_filtered [tieA, tieB] 3

end TalentIQ
